import Mathlib

/-!
Shallow embedding of `src/run.py` (a video-link scraper and parallel
downloader) for verification of its specification.

External libraries are modelled as explicit inputs:
* the yt-dlp extraction call for attempt `k` of a task is modelled by an
  oracle `succeeds : ℤ → Bool`;
* the `requests.get` + `BeautifulSoup` fetch/parse of a page is modelled by
  an `Except String Page` value (`.error e` = the exception raised);
* `urlparse(url).netloc` is modelled by passing the netloc alongside the url;
* the filesystem's set of existing directories is a `List String`;
* the `FAILED_LOG` file is the list of lines appended to it.
-/

namespace Run

/-! ## Configuration constants (src/run.py lines 12-17) -/

def MAX_RETRIES : ℤ := 10

def OUTPUT_DIR : String := "downloads"

def MAX_WORKERS : ℕ := 5

def TIMEOUT : ℕ := 10

def VIDEO_DOMAINS : List String := ["youtube.com", "youtu.be", "vimeo.com", "dailymotion.com"]

def FAILED_LOG : String := "failed.txt"

/-! ## Python `range`

`range(a, b)` in Python yields `a, a+1, ..., b-1`, and is empty when `b ≤ a`
(in particular for zero or negative lengths).  We model it over ℤ via a
length-indexed helper. -/

/-- `pyRangeLen a n = [a, a+1, ..., a+n-1]`. -/
def pyRangeLen (a : ℤ) : ℕ → List ℤ
  | 0 => []
  | n + 1 => a :: pyRangeLen (a + 1) n

/-- Python `range(a, b)`. -/
def pyRange (a b : ℤ) : List ℤ := pyRangeLen a (b - a).toNat

theorem mem_pyRangeLen (n : ℕ) (a k : ℤ) :
    k ∈ pyRangeLen a n ↔ a ≤ k ∧ k < a + n := by
  induction n generalizing a with
  | zero =>
    simp only [pyRangeLen, List.not_mem_nil, false_iff]
    omega
  | succ m ih =>
    simp only [pyRangeLen, List.mem_cons, ih]
    push_cast
    omega

theorem mem_pyRange (a b k : ℤ) : k ∈ pyRange a b ↔ a ≤ k ∧ k < b := by
  unfold pyRange
  rw [mem_pyRangeLen]
  omega

theorem pyRangeLen_append (m n : ℕ) (a : ℤ) :
    pyRangeLen a (m + n) = pyRangeLen a m ++ pyRangeLen (a + m) n := by
  induction m generalizing a with
  | zero => simp [pyRangeLen]
  | succ p ih =>
    have h1 : p + 1 + n = (p + n) + 1 := by omega
    rw [h1]
    simp only [pyRangeLen, ih (a + 1), List.cons_append]
    have h2 : a + 1 + (p : ℤ) = a + ((p : ℕ) + 1 : ℕ) := by push_cast; ring
    rw [h2]

/-! ## The retry loop of `download_video_with_progress` (src/run.py lines 93-129)

The loop body for attempt `attempt` is:
```
try:    ydl.download([url]); print(...); return
except: print(...)
        if attempt == retries: append url to FAILED_LOG
```
The yt-dlp call is modelled by the oracle `succeeds`.  The loop output
records, in order, the attempt numbers executed, the lines appended to
`FAILED_LOG`, and whether the function returned through the success path. -/

structure LoopOut where
  appended : List String
  attempts : List ℤ
  ok : Bool
  deriving Repr, DecidableEq

/-- The `for attempt in range(1, retries + 1)` loop, over an explicit list of
attempt numbers. -/
def attemptLoop (url : String) (retries : ℤ) (succeeds : ℤ → Bool) :
    List ℤ → LoopOut
  | [] => ⟨[], [], false⟩
  | k :: ks =>
    if succeeds k then ⟨[], [k], true⟩
    else
      let r := attemptLoop url retries succeeds ks
      ⟨(if k = retries then [url ++ "\n"] else []) ++ r.appended, k :: r.attempts, r.ok⟩

/-- `os.makedirs`: raises `FileExistsError` when the directory exists. -/
def os_makedirs (fs : List String) (d : String) : Except String (List String) :=
  if d ∈ fs then .error "FileExistsError" else .ok (d :: fs)

/-- Observable events of one `download_video_with_progress` call, in program
order. -/
inductive Ev where
  | mkdir : String → Ev
  | attempt : ℤ → Ev
  deriving Repr, DecidableEq

structure DownloadRun where
  /-- directories existing after the call -/
  fs : List String
  /-- whether `os.makedirs` was invoked -/
  madeDir : Bool
  /-- attempt numbers executed, in order -/
  attempts : List ℤ
  /-- lines appended to `FAILED_LOG`, in order -/
  appended : List String
  /-- the function returned through the success path (line 116) -/
  succeeded : Bool
  deriving Repr, DecidableEq

/-- Directory-creation and attempt events of a run, in program order. -/
def DownloadRun.events (r : DownloadRun) (output_dir : String) : List Ev :=
  (if r.madeDir then [Ev.mkdir output_dir] else []) ++ r.attempts.map Ev.attempt

/-- `download_video_with_progress(url, output_dir, retries)`:
`if not os.path.exists(output_dir): os.makedirs(output_dir)`, then the retry
loop over `range(1, retries + 1)`. -/
def download_video_with_progress (url : String) (output_dir : String) (retries : ℤ)
    (succeeds : ℤ → Bool) (fs : List String) : Except String DownloadRun :=
  let mk : Except String (List String × Bool) :=
    if output_dir ∈ fs then .ok (fs, false)
    else (os_makedirs fs output_dir).map (fun fs' => (fs', true))
  match mk with
  | .error e => .error e
  | .ok (fs', made) =>
    let r := attemptLoop url retries succeeds (pyRange 1 (retries + 1))
    .ok ⟨fs', made, r.attempts, r.appended, r.ok⟩

/-- The spec's task states; `download_video_with_progress` has no explicit
status variable, so the spec's mapping is: success path taken ↦ Succeeded,
retry budget exhausted (a `FAILED_LOG` append) ↦ Failed, neither ↦ Pending. -/
inductive TaskStatus where
  | succeeded
  | failed
  | pending
  deriving Repr, DecidableEq

def DownloadRun.status (r : DownloadRun) : TaskStatus :=
  if r.succeeded then .succeeded
  else if r.appended = [] then .pending
  else .failed

/-! ## Loop lemmas -/

/-- Splitting the attempt range below the retry limit: for `1 ≤ retries`,
`range(1, retries + 1) = [1, ..., retries - 1] ++ [retries]`. -/
theorem pyRange_decomp (retries : ℤ) (h : 1 ≤ retries) :
    pyRange 1 (retries + 1) = pyRangeLen 1 (retries - 1).toNat ++ [retries] := by
  unfold pyRange
  have hn : (retries + 1 - 1).toNat = (retries - 1).toNat + 1 := by omega
  rw [hn, pyRangeLen_append]
  have h2 : (1 : ℤ) + ((retries - 1).toNat : ℤ) = retries := by omega
  rw [h2]
  simp [pyRangeLen]

/-- Splitting the attempt range at an interior attempt `k`. -/
theorem pyRange_decomp_at (retries k : ℤ) (h1 : 1 ≤ k) (h2 : k ≤ retries) :
    pyRange 1 (retries + 1) =
      pyRangeLen 1 (k - 1).toNat ++ (k :: pyRangeLen (k + 1) (retries - k).toNat) := by
  unfold pyRange
  have hn : (retries + 1 - 1).toNat = (k - 1).toNat + ((retries - k).toNat + 1) := by omega
  rw [hn, pyRangeLen_append]
  have hk : (1 : ℤ) + ((k - 1).toNat : ℤ) = k := by omega
  rw [hk]
  simp [pyRangeLen]

/-- A block of failing attempts that are not the last one passes through the
loop: it adds its attempt numbers, appends nothing, and the loop continues. -/
theorem attemptLoop_skip (url : String) (r : ℤ) (succ : ℤ → Bool) (L1 L2 : List ℤ)
    (h : ∀ k ∈ L1, succ k = false ∧ k ≠ r) :
    attemptLoop url r succ (L1 ++ L2) =
      ⟨(attemptLoop url r succ L2).appended,
       L1 ++ (attemptLoop url r succ L2).attempts,
       (attemptLoop url r succ L2).ok⟩ := by
  induction L1 with
  | nil => simp
  | cons a as ih =>
    have ha := h a (List.mem_cons_self a as)
    have hih := ih (fun k hk => h k (List.mem_cons_of_mem a hk))
    simp [attemptLoop, ha.1, ha.2, hih]

/-- `download_video_with_progress` explicitly: the guarded `os.makedirs`
never raises, and the run is the attempt loop over `range(1, retries+1)`. -/
theorem download_eq (url output_dir : String) (retries : ℤ) (succeeds : ℤ → Bool)
    (fs : List String) :
    download_video_with_progress url output_dir retries succeeds fs =
      .ok ⟨if output_dir ∈ fs then fs else output_dir :: fs,
           if output_dir ∈ fs then false else true,
           (attemptLoop url retries succeeds (pyRange 1 (retries + 1))).attempts,
           (attemptLoop url retries succeeds (pyRange 1 (retries + 1))).appended,
           (attemptLoop url retries succeeds (pyRange 1 (retries + 1))).ok⟩ := by
  unfold download_video_with_progress os_makedirs
  by_cases h : output_dir ∈ fs <;> simp [h, Except.map]

/-! ## Claim theorems: retry loop -/

/-- C1: a task whose download attempt fails on every one of the configured
`retries` attempts appends exactly one entry consisting of its URL to the
failure log, executes no attempt beyond the `retries`-th, and ends Failed. -/
theorem retries_exhausted_logs_once (url output_dir : String) (retries : ℤ)
    (succeeds : ℤ → Bool) (fs : List String) (hr : 1 ≤ retries)
    (hfail : ∀ k, 1 ≤ k → k ≤ retries → succeeds k = false) :
    ∃ r : DownloadRun,
      download_video_with_progress url output_dir retries succeeds fs = .ok r ∧
      r.appended = [url ++ "\n"] ∧
      (∀ k ∈ r.attempts, 1 ≤ k ∧ k ≤ retries) ∧
      r.status = .failed := by
  rw [download_eq]
  refine ⟨_, rfl, ?_⟩
  have hskip : ∀ k ∈ pyRangeLen 1 (retries - 1).toNat, succeeds k = false ∧ k ≠ retries := by
    intro k hk
    rw [mem_pyRangeLen] at hk
    exact ⟨hfail k hk.1 (by omega), by omega⟩
  have hlast : attemptLoop url retries succeeds [retries] =
      ⟨[url ++ "\n"], [retries], false⟩ := by
    have : succeeds retries = false := hfail retries (by omega) le_rfl
    simp [attemptLoop, this]
  rw [pyRange_decomp retries hr, attemptLoop_skip url retries succeeds _ _ hskip, hlast]
  refine ⟨rfl, ?_, ?_⟩
  · intro k hk
    simp only [List.mem_append, List.mem_singleton, mem_pyRangeLen] at hk
    constructor <;> omega
  · simp [DownloadRun.status]

/-- C2: a task that succeeds on attempt `k ≤ retries` (all earlier attempts
having failed) executes exactly attempts `1..k` — so none of `k+1..retries` —
appends nothing to the failure log, and ends Succeeded. -/
theorem success_stops_retrying (url output_dir : String) (retries k : ℤ)
    (succeeds : ℤ → Bool) (fs : List String) (h1 : 1 ≤ k) (h2 : k ≤ retries)
    (hk : succeeds k = true) (hbefore : ∀ j, 1 ≤ j → j < k → succeeds j = false) :
    ∃ r : DownloadRun,
      download_video_with_progress url output_dir retries succeeds fs = .ok r ∧
      r.attempts = pyRange 1 (k + 1) ∧
      (∀ j ∈ r.attempts, j ≤ k) ∧
      r.appended = [] ∧
      r.status = .succeeded := by
  rw [download_eq]
  refine ⟨_, rfl, ?_⟩
  have hskip : ∀ j ∈ pyRangeLen 1 (k - 1).toNat, succeeds j = false ∧ j ≠ retries := by
    intro j hj
    rw [mem_pyRangeLen] at hj
    exact ⟨hbefore j hj.1 (by omega), by omega⟩
  have hhit : attemptLoop url retries succeeds (k :: pyRangeLen (k + 1) (retries - k).toNat) =
      ⟨[], [k], true⟩ := by
    simp [attemptLoop, hk]
  rw [pyRange_decomp_at retries k h1 h2,
    attemptLoop_skip url retries succeeds _ _ hskip, hhit]
  have hatt : pyRangeLen 1 (k - 1).toNat ++ [k] = pyRange 1 (k + 1) := by
    rw [pyRange_decomp k h1]
  refine ⟨hatt, ?_, rfl, ?_⟩
  · intro j hj
    simp only [List.mem_append, List.mem_singleton, mem_pyRangeLen] at hj
    omega
  · simp [DownloadRun.status]

/-- C10: invoked with a zero or negative retries budget, the download
operation performs no attempts, appends nothing to the failure log, returns
normally, and ends in neither Succeeded nor Failed. -/
theorem zero_retries_does_nothing (url output_dir : String) (retries : ℤ)
    (succeeds : ℤ → Bool) (fs : List String) (h : retries ≤ 0) :
    ∃ r : DownloadRun,
      download_video_with_progress url output_dir retries succeeds fs = .ok r ∧
      r.attempts = [] ∧
      r.appended = [] ∧
      r.status = .pending := by
  rw [download_eq]
  have hempty : pyRange 1 (retries + 1) = [] := by
    unfold pyRange
    have : (retries + 1 - 1).toNat = 0 := by omega
    rw [this]
    rfl
  rw [hempty]
  exact ⟨_, rfl, rfl, rfl, rfl⟩

/-- C8: the output directory is ensured before any attempt: the call never
fails on directory creation, the directory exists afterwards, an existing
directory triggers no `os.makedirs`, and in the event trace every
directory-creation event precedes every attempt event. -/
theorem output_dir_created_before_attempts (url output_dir : String) (retries : ℤ)
    (succeeds : ℤ → Bool) (fs : List String) :
    ∃ r : DownloadRun,
      download_video_with_progress url output_dir retries succeeds fs = .ok r ∧
      output_dir ∈ r.fs ∧
      (output_dir ∈ fs → r.madeDir = false ∧ r.fs = fs) ∧
      ∃ pre post, r.events output_dir = pre ++ post ∧
        (∀ e ∈ pre, e = Ev.mkdir output_dir) ∧
        (∀ e ∈ post, ∃ k, e = Ev.attempt k) := by
  rw [download_eq]
  refine ⟨_, rfl, ?_, ?_, ?_⟩
  · by_cases h : output_dir ∈ fs <;> simp [h]
  · intro h
    simp [h]
  · refine ⟨_, _, rfl, ?_, ?_⟩
    · by_cases h : output_dir ∈ fs <;> simp [h]
    · intro e he
      rcases List.mem_map.mp he with ⟨k, _, hk⟩
      exact ⟨k, hk.symm⟩

/-! ## The orchestrator `download_videos_in_parallel` (src/run.py lines 133-166)

The `as_completed` loop is modelled as sequential processing of the completed
tasks: for each future it calls `future.result()` — any exception is caught
and printed, never re-raised — and then increments the overall counter by one.
`raises u = some e` models the task for `u` raising exception `e` out of the
worker (the catch at lines 154-157). -/

structure OrchRun where
  /-- the value of the overall counter after each `overall.update(1)` -/
  counters : List ℕ
  /-- the counter when the `as_completed` loop finishes -/
  final : ℕ
  /-- error lines printed for tasks whose future raised -/
  errPrints : List String
  deriving Repr, DecidableEq

/-- The `for future in as_completed(futures)` loop, over the list of task
URLs in completion order, starting from counter value `c`. -/
def completionLoop (raises : String → Option String) : List String → ℕ → OrchRun
  | [], c => ⟨[], c, []⟩
  | u :: us, c =>
    let msg := match raises u with
      | some e => ["Error downloading " ++ u ++ ": " ++ e]
      | none => []
    let rest := completionLoop raises us (c + 1)
    ⟨(c + 1) :: rest.counters, rest.final, msg ++ rest.errPrints⟩

/-- `download_videos_in_parallel(video_urls)`: the overall bar starts at 0
with total `video_urls.length`. -/
def download_videos_in_parallel (video_urls : List String)
    (raises : String → Option String) : OrchRun :=
  completionLoop raises video_urls 0

theorem completionLoop_final (raises : String → Option String) (us : List String) (c : ℕ) :
    (completionLoop raises us c).final = c + us.length := by
  induction us generalizing c with
  | nil => simp [completionLoop]
  | cons u us ih =>
    simp only [completionLoop, ih, List.length_cons]
    omega

theorem completionLoop_counters (raises : String → Option String) (us : List String) (c : ℕ) :
    (completionLoop raises us c).counters.length = us.length ∧
      ∀ x ∈ (completionLoop raises us c).counters, x ≤ c + us.length := by
  induction us generalizing c with
  | nil => simp [completionLoop]
  | cons u us ih =>
    rcases ih (c + 1) with ⟨hlen, hle⟩
    refine ⟨by simp [completionLoop, hlen], ?_⟩
    intro x hx
    simp only [completionLoop, List.mem_cons] at hx
    rcases hx with h | h
    · simp only [h, List.length_cons]
      omega
    · have := hle x h
      simp only [List.length_cons]
      omega

/-- C3: the overall counter is incremented exactly once per task reaching a
terminal state, never exceeds the number of submitted tasks at any point,
and equals that number when orchestration completes — for every exception
behaviour of the tasks, so a failing task never aborts the run. -/
theorem overall_counter_bounded (video_urls : List String)
    (raises : String → Option String) :
    (download_videos_in_parallel video_urls raises).final = video_urls.length ∧
      (download_videos_in_parallel video_urls raises).counters.length =
        video_urls.length ∧
      ∀ x ∈ (download_videos_in_parallel video_urls raises).counters,
        x ≤ video_urls.length := by
  unfold download_videos_in_parallel
  rcases completionLoop_counters raises video_urls 0 with ⟨hlen, hle⟩
  refine ⟨?_, hlen, ?_⟩
  · rw [completionLoop_final]
    omega
  · intro x hx
    have := hle x hx
    omega

/-! ## Link discovery: `extract_video_urls` (src/run.py lines 19-69)

Python's `sub in s` substring test on strings, over the character lists. -/

/-- Does `s` begin with `p`? -/
def startsWithChars : List Char → List Char → Bool
  | [], _ => true
  | _ :: _, [] => false
  | p :: ps, c :: cs => p == c && startsWithChars ps cs

/-- Does `sub` occur contiguously somewhere in the second list? -/
def containsSub (sub : List Char) : List Char → Bool
  | [] => sub.isEmpty
  | c :: cs => startsWithChars sub (c :: cs) || containsSub sub cs

/-- Python's `sub in s` for strings. -/
def strContains (s sub : String) : Bool := containsSub sub.data s.data

theorem startsWithChars_refl (l : List Char) : startsWithChars l l = true := by
  induction l with
  | nil => rfl
  | cons c cs ih => simp [startsWithChars, ih]

theorem containsSub_refl (l : List Char) : containsSub l l = true := by
  cases l with
  | nil => rfl
  | cons c cs => simp [containsSub, startsWithChars_refl]

theorem strContains_refl (s : String) : strContains s s = true :=
  containsSub_refl s.data

/-- The parsed markup of a fetched page, as seen by the three
`soup.find_all` queries: the `src` of each `<video>`, the `src` of each
`<iframe>`, and the `href` of each `<a>` (`none` = attribute absent). -/
structure Page where
  videoSrcs : List (Option String)
  iframeSrcs : List (Option String)
  aHrefs : List (Option String)

/-- Result of `extract_video_urls`: the returned list, whether the page
fetch was performed, and the error message reported on fetch/parse failure. -/
structure ExtractResult where
  result : List String
  fetched : Bool
  errMsg : Option String
  deriving Repr, DecidableEq

/-- `[tag.get('src') for tag in video_tags if tag.get('src')]` (line 41);
Python truthiness of an attribute value excludes both a missing attribute
and the empty string. -/
def videoSrcCandidates (l : List (Option String)) : List String :=
  l.filterMap (fun o =>
    match o with
    | none => none
    | some s => if s == "" then none else some s)

/-- The `<iframe>`/`<a>` loops (lines 44-55): keep a truthy attribute value
that contains some recognized video-domain substring. -/
def domainLinkCandidates (l : List (Option String)) : List String :=
  l.filterMap (fun o =>
    match o with
    | none => none
    | some s =>
      if !(s == "") && VIDEO_DOMAINS.any (fun d => strContains s d) then some s
      else none)

/-- `extract_video_urls(url)`.  `netloc` models `urlparse(url).netloc`; the
fetch+parse (`requests.get`, `raise_for_status`, `BeautifulSoup`) is the
`fetch` argument, `.error e` being an exception caught at line 67. -/
def extract_video_urls (url netloc : String) (fetch : Except String Page) :
    ExtractResult :=
  if VIDEO_DOMAINS.any (fun d => strContains netloc d) then
    ⟨[url], false, none⟩
  else
    match fetch with
    | .error e => ⟨[], true, some e⟩
    | .ok soup =>
      let video_urls := videoSrcCandidates soup.videoSrcs ++
        domainLinkCandidates soup.iframeSrcs ++ domainLinkCandidates soup.aHrefs
      let deduped := (video_urls.filter (fun s => !(s == ""))).dedup
      if deduped = [] then ⟨[url], true, none⟩ else ⟨deduped, true, none⟩

/-- C4: a URL whose host is one of the recognized video-hosting domains is
returned as a singleton directly, with no page fetch. -/
theorem video_domain_passthrough (url netloc : String) (fetch : Except String Page)
    (h : netloc ∈ VIDEO_DOMAINS) :
    extract_video_urls url netloc fetch = ⟨[url], false, none⟩ := by
  unfold extract_video_urls
  have hany : VIDEO_DOMAINS.any (fun d => strContains netloc d) = true :=
    List.any_eq_true.mpr ⟨netloc, h, strContains_refl netloc⟩
  rw [hany]
  simp

/-- C5: on a fetched page with no `<video>` carrying a `src`, no `<iframe>`
whose `src` contains a recognized video-domain substring, and no `<a>` whose
`href` contains one, discovery returns exactly the original page URL. -/
theorem no_candidates_fallback (url netloc : String) (soup : Page)
    (hnd : VIDEO_DOMAINS.any (fun d => strContains netloc d) = false)
    (hv : ∀ o ∈ soup.videoSrcs, o = none)
    (hi : ∀ s : String, some s ∈ soup.iframeSrcs →
      ∀ d ∈ VIDEO_DOMAINS, strContains s d = false)
    (ha : ∀ s : String, some s ∈ soup.aHrefs →
      ∀ d ∈ VIDEO_DOMAINS, strContains s d = false) :
    extract_video_urls url netloc (.ok soup) = ⟨[url], true, none⟩ := by
  have h1 : videoSrcCandidates soup.videoSrcs = [] := by
    unfold videoSrcCandidates
    rw [List.filterMap_eq_nil_iff]
    intro o ho
    rw [hv o ho]
  have hmatch : ∀ (l : List (Option String)),
      (∀ s : String, some s ∈ l → ∀ d ∈ VIDEO_DOMAINS, strContains s d = false) →
      domainLinkCandidates l = [] := by
    intro l hl
    unfold domainLinkCandidates
    rw [List.filterMap_eq_nil_iff]
    intro o ho
    cases o with
    | none => rfl
    | some s =>
      have : VIDEO_DOMAINS.any (fun d => strContains s d) = false := by
        rw [List.any_eq_false]
        intro d hd
        simp [hl s ho d hd]
      simp [this]
  simp only [extract_video_urls, hnd, Bool.false_eq_true, if_false, h1,
    hmatch soup.iframeSrcs hi, hmatch soup.aHrefs ha, List.nil_append,
    List.filter_nil, List.dedup_nil]
  simp

/-- C6: when the page fetch or parse raises, discovery reports the error and
returns the empty list — whatever candidates the page would have yielded are
discarded, and no exception propagates. -/
theorem fetch_failure_empty_result (url netloc e : String)
    (hnd : VIDEO_DOMAINS.any (fun d => strContains netloc d) = false) :
    extract_video_urls url netloc (.error e) = ⟨[], true, some e⟩ := by
  unfold extract_video_urls
  rw [hnd]
  simp

/-! ## `progress_hook` (src/run.py lines 71-91) -/

/-- One progress event dictionary from yt-dlp, restricted to the keys the
hook reads.  `none` models an absent key; `downloaded_bytes` is read only
after one of the total keys was found, as in the source. -/
structure ProgressData where
  status : String
  downloaded_bytes : ℕ
  total_bytes : Option ℕ
  total_bytes_estimate : Option ℕ
  deriving Repr, DecidableEq

/-- `progress = (done / total) * 100 if total else 0` (line 88). -/
def pyProgress (done total : ℕ) : ℚ :=
  if total = 0 then 0 else ((done : ℚ) / (total : ℚ)) * 100

/-- `progress_hook(data, url)`: returns the percentage written to the task's
bar, or `none` when the event emits no progress update. -/
def progress_hook (d : ProgressData) : Option ℚ :=
  if d.status == "downloading" then
    match d.total_bytes, d.total_bytes_estimate with
    | some total, _ => some (pyProgress d.downloaded_bytes total)
    | none, some total => some (pyProgress d.downloaded_bytes total)
    | none, none => none
  else none

/-- The guarded percentage agrees with the plain formula (in ℚ, where
division by zero is zero, matching the `if total else 0` guard). -/
theorem pyProgress_eq (done total : ℕ) :
    pyProgress done total = (done : ℚ) / total * 100 := by
  unfold pyProgress
  by_cases h : total = 0
  · simp [h]
  · simp [h]

/-- C7: a `downloading` event reports `downloaded_bytes / total_bytes × 100`
when `total_bytes` is present, else `downloaded_bytes /
total_bytes_estimate × 100` when the estimate is present, and is ignored
(no update emitted) when neither is present. -/
theorem progress_percentage_formula (d : ProgressData)
    (hs : d.status = "downloading") :
    (∀ t, d.total_bytes = some t →
      progress_hook d = some ((d.downloaded_bytes : ℚ) / t * 100)) ∧
    (d.total_bytes = none → ∀ t, d.total_bytes_estimate = some t →
      progress_hook d = some ((d.downloaded_bytes : ℚ) / t * 100)) ∧
    (d.total_bytes = none → d.total_bytes_estimate = none →
      progress_hook d = none) := by
  refine ⟨?_, ?_, ?_⟩
  · intro t ht
    simp [progress_hook, hs, ht, pyProgress_eq]
  · intro h1 t ht
    simp [progress_hook, hs, h1, ht, pyProgress_eq]
  · intro h1 h2
    simp [progress_hook, hs, h1, h2]

/-- C9: a `downloading` event whose selected total is zero yields progress 0
rather than a division by zero; the hook still emits an update and never
fails. -/
theorem zero_total_guarded (d : ProgressData) (hs : d.status = "downloading")
    (h : d.total_bytes = some 0 ∨
      (d.total_bytes = none ∧ d.total_bytes_estimate = some 0)) :
    progress_hook d = some 0 := by
  rcases h with h | ⟨h1, h2⟩
  · simp [progress_hook, hs, h, pyProgress]
  · simp [progress_hook, hs, h1, h2, pyProgress]

/-! ## Concrete sanity checks (scenarios of spec section 8) -/

example : attemptLoop "u" 2 (fun _ => false) (pyRange 1 3) =
    ⟨["u" ++ "\n"], [1, 2], false⟩ := by decide

example : attemptLoop "u" 3 (fun j => decide (3 ≤ j)) (pyRange 1 4) =
    ⟨[], [1, 2, 3], true⟩ := by decide

example : (download_videos_in_parallel ["a", "b", "c"] (fun _ => none)).final = 3 := rfl

example : (extract_video_urls "https://example.com/watch" "example.com"
    (.ok ⟨[some "clip.mp4"], [], []⟩)).result = ["clip.mp4"] := by decide

/-! ## Witnesses -/

/-- Witness for C1 at url `"u"`, retries 2, an always-failing extractor. -/
theorem retries_exhausted_logs_once_witness :
    ∃ r : DownloadRun,
      download_video_with_progress "u" "downloads" 2 (fun _ => false) [] = .ok r ∧
      r.appended = ["u" ++ "\n"] ∧
      (∀ k ∈ r.attempts, 1 ≤ k ∧ k ≤ 2) ∧
      r.status = .failed :=
  retries_exhausted_logs_once "u" "downloads" 2 (fun _ => false) [] (by norm_num)
    (fun _ _ _ => rfl)

/-- Witness for C2: retries 3, failure on attempt 1, success on attempt 2. -/
theorem success_stops_retrying_witness :
    ∃ r : DownloadRun,
      download_video_with_progress "u" "downloads" 3 (fun j => decide (j = 2)) [] =
        .ok r ∧
      r.attempts = pyRange 1 3 ∧
      (∀ j ∈ r.attempts, j ≤ 2) ∧
      r.appended = [] ∧
      r.status = .succeeded :=
  success_stops_retrying "u" "downloads" 3 2 (fun j => decide (j = 2)) []
    (by norm_num) (by norm_num) (by decide)
    (by
      intro j h1 h2
      simp only [decide_eq_false_iff_not]
      omega)

/-- Witness for C4 at a youtube URL. -/
theorem video_domain_passthrough_witness :
    extract_video_urls "https://youtube.com/watch?v=abc" "youtube.com" (.error "boom") =
      ⟨["https://youtube.com/watch?v=abc"], false, none⟩ :=
  video_domain_passthrough "https://youtube.com/watch?v=abc" "youtube.com"
    (.error "boom") (by decide)

/-- Witness for C5 at a page with no candidate elements at all. -/
theorem no_candidates_fallback_witness :
    extract_video_urls "https://example.com/page" "example.com" (.ok ⟨[], [], []⟩) =
      ⟨["https://example.com/page"], true, none⟩ :=
  no_candidates_fallback "https://example.com/page" "example.com" ⟨[], [], []⟩
    (by decide) (by simp) (by simp) (by simp)

/-- Witness for C6 at a timed-out fetch. -/
theorem fetch_failure_empty_result_witness :
    extract_video_urls "https://example.com/page" "example.com" (.error "timeout") =
      ⟨[], true, some "timeout"⟩ :=
  fetch_failure_empty_result "https://example.com/page" "example.com" "timeout"
    (by decide)

/-- Witness for C7: 50 of 200 bytes downloaded. -/
theorem progress_percentage_formula_witness :
    progress_hook ⟨"downloading", 50, some 200, none⟩ = some ((50 : ℚ) / 200 * 100) :=
  (progress_percentage_formula ⟨"downloading", 50, some 200, none⟩ rfl).1 200 rfl

/-- Witness for C9: a zero `total_bytes`. -/
theorem zero_total_guarded_witness :
    progress_hook ⟨"downloading", 7, some 0, none⟩ = some 0 :=
  zero_total_guarded ⟨"downloading", 7, some 0, none⟩ rfl (Or.inl rfl)

/-- Witness for C10 at retries −3. -/
theorem zero_retries_does_nothing_witness :
    ∃ r : DownloadRun,
      download_video_with_progress "u" "downloads" (-3) (fun _ => true) [] = .ok r ∧
      r.attempts = [] ∧
      r.appended = [] ∧
      r.status = .pending :=
  zero_retries_does_nothing "u" "downloads" (-3) (fun _ => true) [] (by norm_num)

end Run
